import Mathlib

/-!
Verification of the compliance-agent orchestration graph.

This file is a shallow embedding of the LangGraph pipeline found in
`backend/agent` (`nodes.py`, `graph.py`, `state.py`, `router.py`,
`llm_client.py`, `schemas.py`) and `backend/governance/engine.py`.

Modelling conventions:
* Python strings are Lean `String`; `needle in hay` is `pyIn`, `str.lower()`
  is `pyLower`, `sep.join(xs)` is `pyJoin`, `sorted(xs)` is `pySorted`
  (lexicographic by code point, as in Python).
* Confidence scores are two-decimal fractions everywhere in the source
  (0.5, 0.75, 0.9, 0.95, 1.0); they are embedded as integer hundredths
  (50, 75, 90, 95, 100) so that every definition stays executable.
* External collaborators (the generative model, the FAISS hybrid search,
  the article expander over the JSON corpus data file, the tool registry,
  the JSON serializer, and the domain validation rule set, all declared
  pluggable collaborators by the specification) are abstracted as an `Env`
  record plus per-call oracle arguments; every claim is proved for all
  collaborator behaviours.
* Each LangGraph node is a function from the full state to the full state,
  applying the node's partial update (per `AgentState`, `messages` is the
  single accumulate-on-merge field; all other fields are last-write-wins).
* The compiled graph of `build_graph` is the transition relation `Step`;
  the conditional-edge dictionaries are the `*_edges` maps.
-/

namespace ComplianceAgent

/-- Python `str.lower()` (per-character lowercasing). -/
def pyLower (s : String) : String := ⟨s.data.map Char.toLower⟩

/-- Python `needle in hay` substring test. -/
def pyIn (needle hay : String) : Bool := decide (needle.data <:+: hay.data)

/-- Python `sep.join(xs)`. -/
def pyJoin (sep : String) : List String → String
  | [] => ""
  | [x] => x
  | x :: y :: t => x ++ sep ++ pyJoin sep (y :: t)

/-- Helper for `pySplitWs`: walks the characters, accumulating the current word
reversed. -/
def pySplitWsAux : List Char → List Char → List String
  | [], cur => if cur.isEmpty then [] else [⟨cur.reverse⟩]
  | c :: cs, cur =>
      if c.isWhitespace then
        if cur.isEmpty then pySplitWsAux cs []
        else ⟨cur.reverse⟩ :: pySplitWsAux cs []
      else pySplitWsAux cs (c :: cur)

/-- Python `str.split()` with no argument: split on whitespace runs, dropping empties. -/
def pySplitWs (s : String) : List String := pySplitWsAux s.data []

/-- Lexicographic comparison of char lists by code point, as Python compares strings. -/
def charListLe : List Char → List Char → Bool
  | [], _ => true
  | _ :: _, [] => false
  | a :: as, b :: bs => if a = b then charListLe as bs else decide (a < b)

/-- Python `a <= b` on strings. -/
def strLe (a b : String) : Bool := charListLe a.data b.data

/-- Insertion step of `pySorted`. -/
def insertSorted (x : String) : List String → List String
  | [] => [x]
  | y :: ys => if strLe x y then x :: y :: ys else y :: insertSorted x ys

/-- Python `sorted(xs)` on strings (insertion sort by code-point order). -/
def pySorted : List String → List String
  | [] => []
  | x :: xs => insertSorted x (pySorted xs)

/-- Adding an element to a Python `set`, modelled as an append-if-absent list. -/
def setAdd (l : List String) (x : String) : List String :=
  if x ∈ l then l else l ++ [x]

/-- Python `set(xs)`: deduplication (the later `sorted` makes the order canonical). -/
def pyDedup (l : List String) : List String := l.foldl setAdd []

/-- Python `repr` of a list of strings, as used by f-string formatting in `node_fallback`
(inner quote escaping is not modelled; no claim depends on it). -/
def pyReprStrList (l : List String) : String :=
  "[" ++ pyJoin ", " (l.map (fun e => "\x27" ++ e ++ "\x27")) ++ "]"

/-- Python `f"{c:.2f}"` on a confidence stored as integer hundredths. -/
def fmtConf (c : Nat) : String :=
  toString (c / 100) ++ "." ++ (if c % 100 < 10 then "0" else "") ++ toString (c % 100)

/-! ## `agent/schemas.py` -/

/-- RiskLevel enum from `agent/schemas.py`. -/
inductive RiskLevel
  | low
  | medium
  | high
  | critical
deriving Repr, DecidableEq

/-- The `.value` string of a `RiskLevel` member. -/
def RiskLevel.value : RiskLevel → String
  | .low => "low"
  | .medium => "medium"
  | .high => "high"
  | .critical => "critical"

/-- ReasoningMapEntry from `agent/schemas.py`. -/
structure ReasoningMapEntry where
  fact : String
  legal_meaning : String
  gdpr_subsection : String
  justification : String
deriving Repr, DecidableEq

/-- ComplianceResponse from `agent/schemas.py` (pydantic defaults written
explicitly at construction sites; `legal_basis` lists are normalized to a
comma-joined string by the model validator, so it is a single `String` here). -/
structure ComplianceResponse where
  summary : String
  needs_clarification : Bool
  missing_preconditions : List String
  legal_basis : String
  scope_limitation : String
  risk_analysis : String
  risk_level : RiskLevel
  confidence_score : Nat
  references : List String
  reasoning_map : List ReasoningMapEntry
deriving Repr, DecidableEq

/-- ClarificationOption from `agent/schemas.py` (the two fixed options appended by
`node_clarify` are raw dicts with ranks 5 and 6, so `rank` is an unbounded `Nat`). -/
structure ClarificationOption where
  id : String
  text : String
  rank : Nat
deriving Repr, DecidableEq

/-- ClarificationResponse from `agent/schemas.py`. -/
structure ClarificationResponse where
  needs_clarification : Bool
  summary : String
  options : List ClarificationOption
deriving Repr, DecidableEq

/-! ## `governance/decision.py` and `governance/engine.py` -/

/-- DecisionStatus from `governance/decision.py`. -/
inductive DecisionStatus
  | auto_approved
  | review_required
  | blocked
deriving Repr, DecidableEq

/-- GovernanceDecision from `governance/decision.py`. -/
structure GovernanceDecision where
  status : DecisionStatus
  reason : String
  confidence : Nat
  risk_level : String
deriving Repr, DecidableEq

/-- classify_decision from `governance/engine.py` (the 0.75 confidence gate is 75
in integer hundredths). -/
def classify_decision (confidence : Nat) (risk_level : String)
    (requires_refusal : Bool) : GovernanceDecision :=
  if requires_refusal then
    { status := .blocked
      reason := "Response flagged as policy violation or refusal required."
      confidence := confidence, risk_level := risk_level }
  else if risk_level = "critical" then
    { status := .review_required
      reason := "Critical risk topic (e.g., Penalties) mandates human oversight."
      confidence := confidence, risk_level := risk_level }
  else if confidence < 75 then
    { status := .review_required
      reason := "Low model confidence (" ++ fmtConf confidence ++ ")."
      confidence := confidence, risk_level := risk_level }
  else
    { status := .auto_approved
      reason := "Confidence and risk levels within safe autonomous limits."
      confidence := confidence, risk_level := risk_level }

/-! ## `agent/state.py` -/

/-- One entry of the `messages` conversation history. -/
structure Message where
  role : String
  content : String
  name : Option String
deriving Repr, DecidableEq

/-- One pending tool call request (`{"name": ..., "arguments": ...}`; the argument
dict is opaque to the graph, so it is an uninterpreted string here). -/
structure ToolCall where
  name : String
  arguments : String
deriving Repr, DecidableEq

/-- The `final_response` payload dicts built by the terminal-producing nodes.
Each constructor is one dict shape from `agent/nodes.py`:
* `analysisDump r` — a bare `ComplianceResponse.model_dump()` (guardrail block,
  governance pass-through for `needs_clarification`, governance auto-approval);
  this dict has no `"type"` key;
* `chat` — `{"type": "chat", "message": ...}`;
* `error` — `{"type": "error", "message": ...}`;
* `clarification` — `{"type": "clarification", "summary": ..., "options": ...}`;
* `blockedGov` — `{"type": "blocked", "reason": ...}`;
* `reviewRequired` — `{"type": "review_required", "reason": ..., "risk_level": ...,
  "confidence": ..., **model_dump}`. -/
inductive FinalResponse
  | analysisDump (r : ComplianceResponse)
  | chat (message : String)
  | error (message : String)
  | clarification (summary : String) (options : List ClarificationOption)
  | blockedGov (reason : String)
  | reviewRequired (reason : String) (risk_level : String) (confidence : Nat)
      (r : ComplianceResponse)
deriving Repr, DecidableEq

/-- Value of the `"type"` key of a `final_response` dict (`none` when the dict
carries no `"type"` key at all). -/
def FinalResponse.typeTag : FinalResponse → Option String
  | .analysisDump _ => none
  | .chat _ => some "chat"
  | .error _ => some "error"
  | .clarification _ _ => some "clarification"
  | .blockedGov _ => some "blocked"
  | .reviewRequired _ _ _ _ => some "review_required"

/-- AgentState from `agent/state.py`. -/
structure AgentState where
  messages : List Message
  user_query : String
  domain : String
  retrieved_context : String
  analysis : Option ComplianceResponse
  validation_errors : List String
  retry_count : Nat
  route : String
  tool_calls : List ToolCall
  final_response : Option FinalResponse
  thread_id : String
  clarification_options : Option (List ClarificationOption)
  user_selections : Option (List String)
deriving Repr, DecidableEq

/-- The initial state built by `run_graph` / `stream_graph` in `agent/graph.py`
(`run_graph` always passes `user_selections = None`; `stream_graph` forwards its
`user_selections` argument). -/
def initial_state (user_query domain thread_id : String)
    (user_selections : Option (List String)) : AgentState :=
  { messages := []
    user_query := user_query
    domain := domain
    retrieved_context := ""
    analysis := none
    validation_errors := []
    retry_count := 0
    route := ""
    tool_calls := []
    final_response := none
    thread_id := thread_id
    clarification_options := none
    user_selections := user_selections }

/-! ## External collaborators

The specification (§1, §6) declares everything downstream of "call the
generative model" / "call the retrieval index" a pluggable collaborator:
the provider clients, the FAISS index, the article expander over the corpus
data file, the validation rule set, the tool registry and JSON serialization.
They are bundled here as an environment; all claims are proved for every
environment. -/

/-- Deterministic collaborators used by the nodes. -/
structure Env where
  /-- `ContextBuilder.expand_article_by_id` (reads the corpus JSON data file). -/
  expand_article_by_id : String → String
  /-- `_validate_response(response, query)`: the domain validation rule set
  (spec §6 "Validation rule-check": a pure function to a list of violation
  strings). -/
  validate : ComplianceResponse → String → List String
  /-- `agent.tools.execute_tool_call(name, arguments)`. -/
  execute_tool_call : String → String → String
  /-- `json.dumps` of a serialized analysis. -/
  json_dumps : ComplianceResponse → String

/-- Outcome of the structured `safe_api_call` made by `node_llm`: a parsed
`ComplianceResponse`, a raw string (the defensive `isinstance(..., str)` branch),
or a raised exception with its message. -/
inductive LLMOutcome
  | ok (resp : ComplianceResponse)
  | raw (text : String)
  | exc (msg : String)

/-- Outcome of the structured `safe_api_call` made by `node_clarify`. -/
inductive ClarifyOutcome
  | ok (resp : ClarificationResponse)
  | exc (msg : String)

/-- One metadata record returned by `ClauseIndexer.hybrid_search`
(`article_id` already passed through `str(...)` as in `node_retrieve`). -/
structure SearchResult where
  article_id : String
  clause_id : String
  text : String
deriving Repr, DecidableEq

/-! ## `agent/router.py` -/

/-- needs_multi_article_reasoning from `agent/router.py`. -/
def needs_multi_article_reasoning (query : String) : Bool :=
  ["fine", "penalty", "maximum", "sanction", "liable", "consequence", "breach"].any
    (fun k => pyIn k (pyLower query))

/-! ## `agent/nodes.py` — prompts and keyword tables -/

/-- PROMPTS["GDPR"] from `agent/nodes.py`. -/
def GDPR_PROMPT : String :=
  "You are an Agentic Compliance Analyst acting as a Virtual Compliance Officer.\n" ++
  "Your primary obligation is legal precision. You MUST follow this reasoning sequence exactly:\n\n" ++
  "STEP 1: IDENTIFY FACTS. List every factual element from the user query.\n" ++
  "STEP 2: MAP EACH FACT to a specific GDPR subsection. One fact = one subsection.\n" ++
  "STEP 3: FILL the \x27reasoning_map\x27 FIRST. This is your ground truth.\n" ++
  "   MAPPINGS for Art 83(2): (c)=Mitigation/Actions, (f)=Cooperation, (b)=Intent/Negligence.\n" ++
  "   DO NOT cite 83(2)(h) for subject notification.\n" ++
  "STEP 4: DERIVE PROSE FROM MAP.\n" ++
  "   Your \x27summary\x27 and \x27legal_basis\x27 MUST only cite subsections that appear in your reasoning_map.\n" ++
  "   If a subsection is not in the map, you CANNOT cite it in prose.\n" ++
  "STEP 5: SET RISK. Use the number and severity of mapped subsections.\n" ++
  "   Definitions = LOW. Breaches = HIGH. Single-article questions = MEDIUM.\n\n" ++
  "PRECONDITION MATRIX:\n" ++
  "Before adjudicating, evaluate if the user query provides enough context.\n" ++
  "If critical modifiers are missing (encryption status, controller/processor role, data volume),\n" ++
  "set needs_clarification=True, populate missing_preconditions with specific questions,\n" ++
  "and set risk_level to \x27medium\x27 with a low confidence_score.\n\n" ++
  "Your output MUST be valid JSON matching the ComplianceResponse schema:\n" ++
  "- summary: Legal analysis.\n" ++
  "- legal_basis: Specific articles cited.\n" ++
  "- scope_limitation: Precise limits.\n" ++
  "- risk_analysis: Brief justification of risk.\n" ++
  "- needs_clarification: true if missing context prevents adjudication.\n" ++
  "- missing_preconditions: list of clarifying questions to ask.\n"

/-- PROMPTS["FDA"] from `agent/nodes.py`. -/
def FDA_PROMPT : String :=
  "You are a Senior FDA Regulatory Consultant. " ++
  "Your goal is to provide guidance on US Food & Drug Administration regulations and recent legal precedents.\n\n" ++
  "Rules of Engagement:\n" ++
  "1. Focus on 21 CFR, FD&C Act, and recent court cases.\n" ++
  "2. Use the provided External Search Context to cite real lawsuits.\n" ++
  "3. Your output must strictly follow the JSON schema provided.\n"

/-- PROMPTS["CCPA"] from `agent/nodes.py`. -/
def CCPA_PROMPT : String :=
  "You are a Senior Privacy Counsel specializing in CCPA/CPRA. " ++
  "Your goal is to provide definitive, legally precise classifications based on California Civil Code.\n\n" ++
  "Rules of Engagement:\n" ++
  "1. Every claim must cite a specific CCPA section (e.g., §1798.140(v)(1)).\n" ++
  "2. \x27Selling\x27 and \x27Sharing\x27 are DISTINCT legal actions with separate opt-out rights.\n" ++
  "3. Always check for statutory exceptions (§1798.145) before classifying risk.\n" ++
  "4. RISK CALIBRATION: Informational/Recall questions are LOW RISK. Only actionable selling/sharing is MH/HR.\n" ++
  "5. Your output must strictly follow the JSON schema provided.\n"

/-- `PROMPTS.get(domain, PROMPTS["GDPR"])`. -/
def prompt_for (domain : String) : String :=
  if domain = "GDPR" then GDPR_PROMPT
  else if domain = "FDA" then FDA_PROMPT
  else if domain = "CCPA" then CCPA_PROMPT
  else GDPR_PROMPT

/-- The unethical-intent keyword filter of `node_guardrail`. -/
def unethical_keywords : List String :=
  ["evade", "bypass", "avoid detection", "hide", "loophole", "how can i hide"]

/-- The small-talk trigger lexicon of `node_guardrail`. -/
def general_triggers : List String :=
  ["hi", "hello", "who are you", "what can you do", "help", "thanks", "good morning",
   "capabilities"]

/-- The `is_definition_query` keyword list shared verbatim by `node_llm` and
`node_semantic_override`. -/
def is_definition_query_keywords : List String :=
  ["what is", "define", "meaning of", "considered personal info", "stand for",
   "are ip addresses"]

/-- The `definition_keywords` short-circuit list of `node_clarify`. -/
def clarify_definition_keywords : List String :=
  ["what is", "define", "meaning of", "article", "section", "explain"]

/-- The DOMAIN_MAP keyword→article injection table of `node_retrieve`:
`(rule_name, (triggers, injected article ids))`, in source dict order. -/
def DOMAIN_MAP : List (String × List String × List String) :=
  [("penalty_logic", (["fine", "penalty", "administrative", "sanction", "euro"], ["83"])),
   ("scope_logic", (["apply", "applies", "scope", "territorial", "material", "when does"],
      ["2", "3"])),
   ("definition_logic", (["define", "definition", "meaning", "what is a", "who is a"], ["4"])),
   ("rights_logic", (["delete", "erasure", "erase", "forget", "access", "rectify", "copy"],
      ["6", "12", "15", "17"])),
   ("dpo_logic", (["dpo", "officer", "representative", "public authority"], ["37", "38", "39"])),
   ("transfer_logic", (["transfer", "third country", "abroad", "adequacy"], ["45", "46", "49"]))]

/-- The SEMANTIC_MAP of `node_semantic_override` (CCPA):
`(keyword, (citation, risk, confidence))`, in source dict order. -/
def SEMANTIC_MAP : List (String × String × RiskLevel × Nat) :=
  [("personal information", ("§1798.140(v)(1)", (.low, 100))),
   ("sensitive", ("§1798.140(ae)", (.medium, 95))),
   ("sale", ("§1798.140(ad)", (.medium, 95))),
   ("share", ("§1798.140(ah)", (.medium, 95))),
   ("fraud", ("§1798.105(d)(1)", (.medium, 90))),
   ("delete", ("§1798.105", (.medium, 90))),
   ("geolocation", ("§1798.140(ae)", (.medium, 95)))]

/-- The hard-coded blocked `ComplianceResponse` of `node_guardrail`. -/
def blocked_compliance_response : ComplianceResponse :=
  { risk_level := .high
    confidence_score := 100
    legal_basis := "GDPR Art 5(1)(a) (Lawfulness & Transparency)"
    summary :=
      "This request involves evasion of mandatory compliance obligations. " ++
      "Attempting to hide data breaches violates Article 33 (Notification Authority) " ++
      "and Article 34 (Notification to Data Subject)."
    scope_limitation := "N/A - Illegal Request"
    risk_analysis := "Severe regulatory fines (up to 4% global turnover) and criminal liability."
    reasoning_map := []
    needs_clarification := false
    missing_preconditions := []
    references := [] }

/-! ## `agent/nodes.py` — node functions -/

/-- node_guardrail: intent filter + routing. -/
def node_guardrail (s : AgentState) : AgentState :=
  if unethical_keywords.any (fun k => pyIn k (pyLower s.user_query)) then
    { s with route := "blocked"
             final_response := some (.analysisDump blocked_compliance_response) }
  else if (pySplitWs s.user_query).length < 10 ∧
      general_triggers.any (fun t => pyIn t (pyLower s.user_query)) = true then
    { s with route := "general" }
  else
    { s with route := "analysis" }

/-- node_chat: one unstructured generative call (the oracle argument `chat_text` is
`response.choices[0].message.content`); the partial update sets only
`final_response`. -/
def node_chat (chat_text : String) (s : AgentState) : AgentState :=
  { s with final_response := some (.chat chat_text) }

/-- node_retrieve: FAISS hybrid search plus context building. Index construction
and `indexer.hybrid_search(query, k)` (with `k = 6` when
`needs_multi_article_reasoning(query)` else `3`) are the retrieval collaborator;
their output is the `results` argument. `fda_ctx` is the
`LawsuitSearcher.search_lawsuits` collaborator output used by the FDA branch. -/
def node_retrieve (env : Env) (results : List SearchResult) (fda_ctx : String)
    (s : AgentState) : AgentState :=
  if s.domain = "GDPR" then
    if results.isEmpty then
      { s with retrieved_context := ""
               final_response := some (.error "Insufficient context found.")
               route := "blocked" }
    else
      let retrieved_ids := pyDedup (results.map (fun r => r.article_id))
      let q_lower := pyLower s.user_query
      let ids := DOMAIN_MAP.foldl
        (fun ids rule =>
          if rule.2.1.any (fun t => pyIn t q_lower) then rule.2.2.foldl setAdd ids else ids)
        retrieved_ids
      let full_contexts := (pySorted ids).map env.expand_article_by_id
      { s with retrieved_context := pyJoin "\n\n" full_contexts }
  else if s.domain = "FDA" then
    { s with retrieved_context := fda_ctx }
  else if s.domain = "CCPA" then
    { s with retrieved_context :=
        "Source: CCPA/CPRA Legal Statutes (Modeled Knowledge - Statutory Exception Active)." }
  else
    { s with retrieved_context := "" }

/-- The two fixed universal options appended by `node_clarify` ("Other" and
"I don\x27t know", raw dicts with ranks 5 and 6). -/
def clarify_static_options : List ClarificationOption :=
  [{ id := "opt_custom", text := "Other (describe your situation)", rank := 5 },
   { id := "opt_unknown", text := "I don\x27t know / Skip clarification", rank := 6 }]

/-- node_clarify: ambiguity detection. The lightweight structured sub-call
is the oracle argument `o`; the selection and definition-keyword branches
return before that call is made, so their result does not depend on `o`. -/
def node_clarify (o : ClarifyOutcome) (s : AgentState) : AgentState :=
  match s.user_selections with
  | some (sel :: sels) =>
      { s with
          retrieved_context := s.retrieved_context ++ "\n\n[USER CLARIFICATION]\n" ++
            pyJoin "\n" ((sel :: sels).map (fun x => "- " ++ x)),
          route := "clear" }
  | _ =>
    if clarify_definition_keywords.any (fun k => pyIn k (pyLower s.user_query)) then
      { s with route := "clear" }
    else
      match o with
      | .exc _ => { s with route := "clear" }
      | .ok result =>
        if ¬ result.needs_clarification ∨ result.options.isEmpty then
          { s with route := "clear" }
        else
          { s with route := "depends"
                   clarification_options := some (result.options.take 4 ++ clarify_static_options)
                   final_response := some (.clarification result.summary
                     (result.options.take 4 ++ clarify_static_options)) }

/-- The `risk_guidance` note appended by `node_llm` for definition queries. -/
def RISK_GUIDANCE : String :=
  "\n[CONTEXT NOTE: This is a DEFINITION query. Risk Level must be \x27low\x27. Calibrate confidence to 1.0.]"

/-- node_llm: the structured generation call (outcome `o`). On success the
partial update sets `analysis`, clears `validation_errors` and appends the
prompt messages (the `messages` field accumulates on merge); on a raw-string
response or an exception it sets an error `final_response` and
`route = "blocked"`. -/
def node_llm (env : Env) (o : LLMOutcome) (s : AgentState) : AgentState :=
  let is_definition_query :=
    is_definition_query_keywords.any (fun k => pyIn k (pyLower s.user_query))
  let risk_guidance := if is_definition_query then RISK_GUIDANCE else ""
  let base_messages : List Message :=
    [{ role := "system", content := prompt_for s.domain ++ risk_guidance, name := none },
     { role := "user"
       content := "CONTEXT (Source: " ++ s.domain ++ " Knowledge):\n" ++
         s.retrieved_context ++ "\n\nQUERY: " ++ s.user_query
       name := none }]
  let messages :=
    if 0 < s.retry_count ∧ s.validation_errors ≠ [] then
      (base_messages ++
        (match s.analysis with
         | some prev => [{ role := "assistant", content := env.json_dumps prev, name := none }]
         | none => [])) ++
      [{ role := "user"
         content := "CRITICAL LOGIC ERROR: Your previous answer failed validation rules.\n" ++
           "Errors:\n" ++ pyJoin "\n" s.validation_errors ++
           "\n\nFIX IMMEDIATELY. Cite the missing articles. Correct the scope."
         name := none }]
    else base_messages
  match o with
  | .ok structured_response =>
      { s with analysis := some structured_response
               validation_errors := []
               messages := s.messages ++ messages }
  | .raw text =>
      { s with final_response := some (.error text), route := "blocked" }
  | .exc e =>
      { s with final_response := some (.error ("API Error: " ++ e)), route := "blocked" }

/-- node_validator: runs the validation rule set. In this embedding `analysis`
is already structured, so the `ComplianceResponse(**analysis_dict)` re-parse
always succeeds (its failure branch in the source also increments
`retry_count`, exactly like the errors branch). -/
def node_validator (env : Env) (s : AgentState) : AgentState :=
  match s.analysis with
  | none => { s with validation_errors := ["No analysis to validate."] }
  | some response =>
    if env.validate response s.user_query = [] then
      { s with validation_errors := [] }
    else
      { s with validation_errors := env.validate response s.user_query
               retry_count := s.retry_count + 1 }

/-- The fixed GDPR tax-erasure override texts of `node_semantic_override`. -/
def TAX_SCOPE_LIMITATION : String :=
  "Only personal data strictly necessary for the legal obligation may be retained. All other personal data must be erased."

/-- The fixed GDPR tax-erasure override summary of `node_semantic_override`. -/
def TAX_SUMMARY : String :=
  "Partial Refusal. Under GDPR Article 17(3)(b), the right to erasure does not apply where processing is necessary " ++
  "to comply with a legal obligation. Retention of transaction records required by tax law is lawful under Article 6(1)(c). " ++
  "However, only data strictly necessary for the obligation may be retained; all other data must be erased."

/-- The in-place mutations of the GDPR tax-erasure branch of
`node_semantic_override`. -/
def gdpr_tax_override (response : ComplianceResponse) : ComplianceResponse :=
  { response with
      risk_level := .medium
      confidence_score := 100
      legal_basis := "GDPR Article 17(3)(b) (Exception) & Article 6(1)(c) (Lawful Basis)"
      scope_limitation := TAX_SCOPE_LIMITATION
      summary := TAX_SUMMARY }

/-- The in-place mutations applied for the first matching SEMANTIC_MAP entry in
the CCPA branch of `node_semantic_override`. -/
def ccpa_semantic_override (kv : String × String × RiskLevel × Nat)
    (response : ComplianceResponse) : ComplianceResponse :=
  { response with
      legal_basis := "California Civil Code " ++ kv.2.1
      risk_level := kv.2.2.1
      confidence_score := kv.2.2.2 }

/-- The domain-specific block of `node_semantic_override` (everything up to the
definition-query override): GDPR tax-erasure patch, or CCPA SEMANTIC_MAP patch
for the first keyword found in the query (the for-break loop is `List.find?`
over the table in source dict order). -/
def override_domain (domain query : String)
    (response : ComplianceResponse) : ComplianceResponse :=
  if domain = "GDPR" then
    if pyIn "tax" (pyLower query) ∧
        (pyIn "erase" (pyLower query) ∨ pyIn "delet" (pyLower query) ∨
          pyIn "refuse" (pyLower query)) then
      gdpr_tax_override response
    else response
  else if domain = "CCPA" then
    match SEMANTIC_MAP.find? (fun kv => pyIn kv.1 (pyLower query)) with
    | some kv => ccpa_semantic_override kv response
    | none => response
  else response

/-- The trailing definition-query override block of `node_semantic_override`
(`if is_definition_query and response.risk_level != RiskLevel.HIGH`). -/
def override_definition (query : String)
    (response : ComplianceResponse) : ComplianceResponse :=
  if (is_definition_query_keywords.any fun k => pyIn k (pyLower query)) = true ∧
      response.risk_level ≠ .high then
    { response with confidence_score := 100, risk_level := .low }
  else response

/-- The semantic corrections applied by `node_semantic_override` to the parsed
candidate (the in-place pydantic mutations, as a function of domain, query and
candidate): the domain-specific block followed by the definition-query block. -/
def semantic_override_response (domain query : String)
    (response : ComplianceResponse) : ComplianceResponse :=
  override_definition query (override_domain domain query response)

/-- node_semantic_override: deterministic Python-layer corrections; no update
when there is no analysis. -/
def node_semantic_override (s : AgentState) : AgentState :=
  match s.analysis with
  | none => s
  | some response =>
      { s with analysis := some (semantic_override_response s.domain s.user_query response) }

/-- node_governance: the decision gate over `classify_decision`. -/
def node_governance (s : AgentState) : AgentState :=
  match s.analysis with
  | none => { s with final_response := some (.error "No analysis for governance.") }
  | some response =>
    if response.needs_clarification then
      { s with final_response := some (.analysisDump response) }
    else
      match (classify_decision response.confidence_score response.risk_level.value false).status with
      | .blocked =>
          { s with final_response := some (.blockedGov
              (classify_decision response.confidence_score response.risk_level.value false).reason) }
      | .review_required =>
          { s with final_response := some (FinalResponse.reviewRequired
              (classify_decision response.confidence_score response.risk_level.value false).reason
              (classify_decision response.confidence_score response.risk_level.value false).risk_level
              (classify_decision response.confidence_score response.risk_level.value false).confidence
              response) }
      | .auto_approved => { s with final_response := some (.analysisDump response) }

/-- node_tool_executor: dispatches every pending tool call, appends the results
to the conversation and clears `tool_calls`. -/
def node_tool_executor (env : Env) (s : AgentState) : AgentState :=
  let new_messages := s.tool_calls.map (fun tc =>
    ({ role := "tool", content := env.execute_tool_call tc.name tc.arguments
       name := some tc.name } : Message))
  { s with messages := s.messages ++ new_messages, tool_calls := [] }

/-- node_fallback: the hard failure after exhausting retries. -/
def node_fallback (s : AgentState) : AgentState :=
  { s with final_response := some (.error
      ("❌ Analysis failed after " ++ toString s.retry_count ++ " retries. Last errors: " ++
        pyReprStrList s.validation_errors)) }

/-! ## `agent/nodes.py` — routing functions -/

/-- route_after_guardrail. -/
def route_after_guardrail (s : AgentState) : String :=
  if s.route = "blocked" then "end"
  else if s.route = "general" then "chat"
  else "retrieve"

/-- route_after_clarify. -/
def route_after_clarify (s : AgentState) : String :=
  if s.route = "depends" then "end" else "llm"

/-- route_after_llm. -/
def route_after_llm (s : AgentState) : String :=
  if s.route = "blocked" then "end"
  else if s.tool_calls ≠ [] then "tool_executor"
  else "validator"

/-- route_after_validation. -/
def route_after_validation (s : AgentState) : String :=
  if s.validation_errors = [] then "semantic_override"
  else if s.retry_count < 3 then "llm"
  else "fallback"

/-! ## `agent/graph.py` — the compiled graph -/

/-- The graph stages registered by `build_graph`, plus the terminal END. -/
inductive Stage
  | guardrail
  | chat
  | retrieve
  | clarify
  | llm
  | validator
  | semantic_override
  | governance
  | tool_executor
  | fallback
  | done
deriving Repr, DecidableEq

/-- The conditional-edge dictionary attached to `guardrail` in `build_graph`
(`{"end": END, "chat": "chat", "retrieve": "retrieve"}`; the router only
returns listed keys). -/
def guardrail_edges : String → Stage
  | "chat" => .chat
  | "retrieve" => .retrieve
  | _ => .done

/-- The conditional-edge dictionary attached to `clarify` in `build_graph`. -/
def clarify_edges : String → Stage
  | "llm" => .llm
  | _ => .done

/-- The conditional-edge dictionary attached to `llm` in `build_graph`. -/
def llm_edges : String → Stage
  | "tool_executor" => .tool_executor
  | "validator" => .validator
  | _ => .done

/-- The conditional-edge dictionary attached to `validator` in `build_graph`. -/
def validation_edges : String → Stage
  | "semantic_override" => .semantic_override
  | "llm" => .llm
  | _ => .fallback

/-- One transition of the compiled graph: run the node registered at the
current stage (with its collaborator outcomes as oracle arguments), then follow
the unconditional edge or the conditional-edge dictionary of `build_graph`.
`Stage.done` is END and has no outgoing transition. -/
inductive Step (env : Env) : Stage × AgentState → Stage × AgentState → Prop
  | guardrail (s : AgentState) :
      Step env (.guardrail, s)
        (guardrail_edges (route_after_guardrail (node_guardrail s)), node_guardrail s)
  | chat (chat_text : String) (s : AgentState) :
      Step env (.chat, s) (.done, node_chat chat_text s)
  | retrieve (results : List SearchResult) (fda_ctx : String) (s : AgentState) :
      Step env (.retrieve, s) (.clarify, node_retrieve env results fda_ctx s)
  | clarify (o : ClarifyOutcome) (s : AgentState) :
      Step env (.clarify, s)
        (clarify_edges (route_after_clarify (node_clarify o s)), node_clarify o s)
  | llm (o : LLMOutcome) (s : AgentState) :
      Step env (.llm, s)
        (llm_edges (route_after_llm (node_llm env o s)), node_llm env o s)
  | validator (s : AgentState) :
      Step env (.validator, s)
        (validation_edges (route_after_validation (node_validator env s)),
          node_validator env s)
  | semantic_override (s : AgentState) :
      Step env (.semantic_override, s) (.governance, node_semantic_override s)
  | governance (s : AgentState) :
      Step env (.governance, s) (.done, node_governance s)
  | tool_executor (s : AgentState) :
      Step env (.tool_executor, s) (.llm, node_tool_executor env s)
  | fallback (s : AgentState) :
      Step env (.fallback, s) (.done, node_fallback s)

/-- Reachability along the compiled graph. -/
def Reach (env : Env) : Stage × AgentState → Stage × AgentState → Prop :=
  Relation.ReflTransGen (Step env)

/-! ## `agent/llm_client.py` — provider failover -/

/-- The schema-mismatch classifier of `safe_api_call`
(`"tool call validation failed" in error_msg or "validation error" in error_msg`,
on the lowercased exception text). -/
def is_schema_mismatch (e : String) : Bool :=
  pyIn "tool call validation failed" (pyLower e) || pyIn "validation error" (pyLower e)

/-- Result of `safe_api_call`: a parsed response, the short-circuit
`RuntimeError("Schema Validation Error: ...")`, or the final
`RuntimeError("[OUTAGE] ...")` carrying the accumulated per-model errors. -/
inductive ApiResult (α : Type)
  | ok (resp : α)
  | schema_error (msg : String)
  | outage (errors : List String)
deriving DecidableEq

/-- The failover loop of `safe_api_call` over the remaining `models`, carrying
the accumulated `errors`; `call m` is the provider call outcome for model `m`. -/
def safe_api_call_loop {α : Type} (call : String → Except String α) :
    List String → List String → ApiResult α
  | [], errors => .outage errors
  | m :: rest, errors =>
      match call m with
      | .ok r => .ok r
      | .error e =>
          if is_schema_mismatch e then
            .schema_error ("Schema Validation Error: " ++ pyLower e)
          else
            safe_api_call_loop call rest (errors ++ [m ++ ": " ++ e])

/-- safe_api_call from `agent/llm_client.py`. -/
def safe_api_call {α : Type} (call : String → Except String α)
    (models : List String) : ApiResult α :=
  safe_api_call_loop call models []

/-- Instrumentation of the failover loop: the prefix of `models` actually
attempted before `safe_api_call` returns or raises. -/
def safe_api_models_tried {α : Type} (call : String → Except String α) :
    List String → List String
  | [] => []
  | m :: rest =>
      m :: (match call m with
            | .ok _ => []
            | .error e =>
                if is_schema_mismatch e then [] else safe_api_models_tried call rest)

/-! ## Characterization lemmas for routers and nodes -/

theorem route_after_guardrail_spec (s : AgentState) :
    (s.route = "blocked" ∧ route_after_guardrail s = "end") ∨
    (s.route ≠ "blocked" ∧ s.route = "general" ∧ route_after_guardrail s = "chat") ∨
    (s.route ≠ "blocked" ∧ s.route ≠ "general" ∧ route_after_guardrail s = "retrieve") := by
  unfold route_after_guardrail
  by_cases h1 : s.route = "blocked" <;> by_cases h2 : s.route = "general" <;> simp [h1, h2]

theorem route_after_clarify_spec (s : AgentState) :
    (s.route = "depends" ∧ route_after_clarify s = "end") ∨
    (s.route ≠ "depends" ∧ route_after_clarify s = "llm") := by
  unfold route_after_clarify
  by_cases h : s.route = "depends" <;> simp [h]

theorem route_after_llm_spec (s : AgentState) :
    (s.route = "blocked" ∧ route_after_llm s = "end") ∨
    (s.route ≠ "blocked" ∧ s.tool_calls ≠ [] ∧ route_after_llm s = "tool_executor") ∨
    (s.route ≠ "blocked" ∧ s.tool_calls = [] ∧ route_after_llm s = "validator") := by
  unfold route_after_llm
  by_cases h1 : s.route = "blocked" <;> by_cases h2 : s.tool_calls = [] <;> simp [h1, h2]

theorem route_after_validation_spec (s : AgentState) :
    (s.validation_errors = [] ∧ route_after_validation s = "semantic_override") ∨
    (s.validation_errors ≠ [] ∧ s.retry_count < 3 ∧ route_after_validation s = "llm") ∨
    (s.validation_errors ≠ [] ∧ ¬ s.retry_count < 3 ∧ route_after_validation s = "fallback") := by
  unfold route_after_validation
  by_cases h1 : s.validation_errors = [] <;> by_cases h2 : s.retry_count < 3 <;> simp [h1, h2]

theorem node_guardrail_spec (s : AgentState) :
    node_guardrail s =
      { s with route := "blocked",
               final_response := some (.analysisDump blocked_compliance_response) } ∨
    node_guardrail s = { s with route := "general" } ∨
    node_guardrail s = { s with route := "analysis" } := by
  unfold node_guardrail
  split
  · exact Or.inl rfl
  · split
    · exact Or.inr (Or.inl rfl)
    · exact Or.inr (Or.inr rfl)

theorem node_retrieve_spec (env : Env) (results : List SearchResult) (fda_ctx : String)
    (s : AgentState) :
    (∃ ctx, node_retrieve env results fda_ctx s = { s with retrieved_context := ctx }) ∨
    node_retrieve env results fda_ctx s =
      { s with retrieved_context := "",
               final_response := some (.error "Insufficient context found."),
               route := "blocked" } := by
  unfold node_retrieve
  split
  · split
    · exact Or.inr rfl
    · exact Or.inl ⟨_, rfl⟩
  · split
    · exact Or.inl ⟨_, rfl⟩
    · split
      · exact Or.inl ⟨_, rfl⟩
      · exact Or.inl ⟨_, rfl⟩

theorem node_clarify_spec (o : ClarifyOutcome) (s : AgentState) :
    (∃ ctx, node_clarify o s = { s with retrieved_context := ctx, route := "clear" }) ∨
    node_clarify o s = { s with route := "clear" } ∨
    (∃ sum opts, node_clarify o s =
      { s with route := "depends",
               clarification_options := some opts,
               final_response := some (.clarification sum opts) }) := by
  have main : ∀ t : AgentState, t.user_selections = none ∨ t.user_selections = some [] →
      node_clarify o t = { t with route := "clear" } ∨
      (∃ sum opts, node_clarify o t =
        { t with route := "depends",
                 clarification_options := some opts,
                 final_response := some (.clarification sum opts) }) := by
    intro t hsel
    by_cases hdef :
        (clarify_definition_keywords.any fun k => pyIn k (pyLower t.user_query)) = true
    · refine Or.inl ?_
      rcases hsel with hsel | hsel <;> simp only [node_clarify.eq_def, hsel] <;>
        rw [if_pos hdef]
    · cases o with
      | exc m =>
          refine Or.inl ?_
          rcases hsel with hsel | hsel <;> simp only [node_clarify.eq_def, hsel] <;>
            rw [if_neg hdef]
      | ok r =>
          by_cases hclr : ¬ r.needs_clarification = true ∨ r.options.isEmpty = true
          · refine Or.inl ?_
            rcases hsel with hsel | hsel <;> simp only [node_clarify.eq_def, hsel] <;>
              rw [if_neg hdef, if_pos hclr]
          · refine Or.inr ⟨r.summary, r.options.take 4 ++ clarify_static_options, ?_⟩
            rcases hsel with hsel | hsel <;> simp only [node_clarify.eq_def, hsel] <;>
              rw [if_neg hdef, if_neg hclr]
  rcases hsel : s.user_selections with _ | ⟨_ | ⟨sel, rest⟩⟩
  · rcases main s (Or.inl hsel) with h | h
    · rw [hsel] at h; exact Or.inr (Or.inl h)
    · rw [hsel] at h; exact Or.inr (Or.inr h)
  · rcases main s (Or.inr hsel) with h | h
    · rw [hsel] at h; exact Or.inr (Or.inl h)
    · rw [hsel] at h; exact Or.inr (Or.inr h)
  · refine Or.inl ⟨s.retrieved_context ++ "\n\n[USER CLARIFICATION]\n" ++
      pyJoin "\n" ((sel :: rest).map (fun x => "- " ++ x)), ?_⟩
    simp only [node_clarify.eq_def, hsel]

theorem node_llm_spec (env : Env) (o : LLMOutcome) (s : AgentState) :
    (∃ r msgs, node_llm env o s =
      { s with analysis := some r,
               validation_errors := [],
               messages := s.messages ++ msgs }) ∨
    (∃ m, node_llm env o s =
      { s with final_response := some (.error m),
               route := "blocked" }) := by
  cases o with
  | ok r => exact Or.inl ⟨r, _, rfl⟩
  | raw t => exact Or.inr ⟨t, rfl⟩
  | exc e => exact Or.inr ⟨_, rfl⟩

theorem node_validator_spec (env : Env) (s : AgentState) :
    (s.analysis = none ∧
      node_validator env s = { s with validation_errors := ["No analysis to validate."] }) ∨
    (∃ a, s.analysis = some a ∧
      ((env.validate a s.user_query = [] ∧
          node_validator env s = { s with validation_errors := [] }) ∨
       (env.validate a s.user_query ≠ [] ∧
          node_validator env s =
            { s with validation_errors := env.validate a s.user_query,
                     retry_count := s.retry_count + 1 }))) := by
  rcases h : s.analysis with _ | a
  · refine Or.inl ⟨rfl, ?_⟩
    simp only [node_validator.eq_def, h]
  · refine Or.inr ⟨a, rfl, ?_⟩
    by_cases herr : env.validate a s.user_query = []
    · refine Or.inl ⟨herr, ?_⟩
      simp only [node_validator.eq_def, h]
      rw [if_pos herr]
    · refine Or.inr ⟨herr, ?_⟩
      simp only [node_validator.eq_def, h]
      rw [if_neg herr]

theorem node_semantic_override_spec (s : AgentState) :
    (s.analysis = none ∧ node_semantic_override s = s) ∨
    (∃ a, s.analysis = some a ∧ node_semantic_override s =
      { s with analysis := some (semantic_override_response s.domain s.user_query a) }) := by
  rcases h : s.analysis with _ | a
  · exact Or.inl ⟨rfl, by simp only [node_semantic_override.eq_def, h]⟩
  · exact Or.inr ⟨a, rfl, by simp only [node_semantic_override.eq_def, h]⟩

theorem node_governance_spec (s : AgentState) :
    ∃ fr, node_governance s = { s with final_response := some fr } := by
  rcases h : s.analysis with _ | r
  · exact ⟨FinalResponse.error "No analysis for governance.",
      by simp only [node_governance.eq_def, h]⟩
  · by_cases hc : r.needs_clarification = true
    · refine ⟨.analysisDump r, ?_⟩
      simp only [node_governance.eq_def, h]
      rw [if_pos hc]
    · cases hs : (classify_decision r.confidence_score r.risk_level.value false).status with
      | blocked =>
          refine ⟨.blockedGov
            (classify_decision r.confidence_score r.risk_level.value false).reason, ?_⟩
          simp only [node_governance.eq_def, h]
          rw [if_neg hc]
          simp only [hs]
      | review_required =>
          refine ⟨FinalResponse.reviewRequired
            (classify_decision r.confidence_score r.risk_level.value false).reason
            (classify_decision r.confidence_score r.risk_level.value false).risk_level
            (classify_decision r.confidence_score r.risk_level.value false).confidence r, ?_⟩
          simp only [node_governance.eq_def, h]
          rw [if_neg hc]
          simp only [hs]
      | auto_approved =>
          refine ⟨.analysisDump r, ?_⟩
          simp only [node_governance.eq_def, h]
          rw [if_neg hc]
          simp only [hs]

/-! ## The graph invariant -/

/-- Inductive invariant of the compiled graph, established along every execution
from an initial state: the retry counter never exceeds 3 (and is at most 2
before the validator has run at a stage that can still reach it), the validator
only ever runs on a present analysis with `route = "clear"`, END is only reached
with a `final_response` set, and no pending tool calls ever exist (so the
tool-executor stage is never entered). -/
def Inv (p : Stage × AgentState) : Prop :=
  p.2.retry_count ≤ 3 ∧
  ((p.1 = .guardrail ∨ p.1 = .chat ∨ p.1 = .retrieve ∨ p.1 = .clarify ∨ p.1 = .llm ∨
      p.1 = .tool_executor ∨ p.1 = .validator) → p.2.retry_count ≤ 2) ∧
  (p.1 = .validator → ∃ a, p.2.analysis = some a) ∧
  ((p.1 = .llm ∨ p.1 = .tool_executor ∨ p.1 = .validator) → p.2.route = "clear") ∧
  (p.1 = .done → ∃ fr, p.2.final_response = some fr) ∧
  p.2.tool_calls = [] ∧
  p.1 ≠ .tool_executor

theorem inv_done {X : AgentState} (h1 : X.retry_count ≤ 3) (h2 : X.tool_calls = [])
    (h3 : ∃ fr, X.final_response = some fr) : Inv (.done, X) :=
  ⟨h1, by simp, by simp, by simp, fun _ => h3, h2, by simp⟩

theorem inv_chat {X : AgentState} (h1 : X.retry_count ≤ 2) (h2 : X.tool_calls = []) :
    Inv (.chat, X) :=
  ⟨le_trans h1 (by omega), fun _ => h1, by simp, by simp, by simp, h2, by simp⟩

theorem inv_retrieve {X : AgentState} (h1 : X.retry_count ≤ 2) (h2 : X.tool_calls = []) :
    Inv (.retrieve, X) :=
  ⟨le_trans h1 (by omega), fun _ => h1, by simp, by simp, by simp, h2, by simp⟩

theorem inv_clarify {X : AgentState} (h1 : X.retry_count ≤ 2) (h2 : X.tool_calls = []) :
    Inv (.clarify, X) :=
  ⟨le_trans h1 (by omega), fun _ => h1, by simp, by simp, by simp, h2, by simp⟩

theorem inv_llm {X : AgentState} (h1 : X.retry_count ≤ 2) (h2 : X.route = "clear")
    (h3 : X.tool_calls = []) : Inv (.llm, X) :=
  ⟨le_trans h1 (by omega), fun _ => h1, by simp, fun _ => h2, by simp, h3, by simp⟩

theorem inv_validator {X : AgentState} (h1 : X.retry_count ≤ 2) (h2 : X.route = "clear")
    (h3 : X.tool_calls = []) (h4 : ∃ a, X.analysis = some a) : Inv (.validator, X) :=
  ⟨le_trans h1 (by omega), fun _ => h1, fun _ => h4, fun _ => h2, by simp, h3, by simp⟩

theorem inv_semantic_override {X : AgentState} (h1 : X.retry_count ≤ 3)
    (h2 : X.tool_calls = []) : Inv (.semantic_override, X) :=
  ⟨h1, by simp, by simp, by simp, by simp, h2, by simp⟩

theorem inv_governance {X : AgentState} (h1 : X.retry_count ≤ 3)
    (h2 : X.tool_calls = []) : Inv (.governance, X) :=
  ⟨h1, by simp, by simp, by simp, by simp, h2, by simp⟩

theorem inv_fallback {X : AgentState} (h1 : X.retry_count ≤ 3)
    (h2 : X.tool_calls = []) : Inv (.fallback, X) :=
  ⟨h1, by simp, by simp, by simp, by simp, h2, by simp⟩

theorem step_preserves_inv {env : Env} {p q : Stage × AgentState}
    (hstep : Step env p q) (hInv : Inv p) : Inv q := by
  obtain ⟨i1, i2, i3, i4, i5, i6, i7⟩ := hInv
  cases hstep with
  | guardrail s =>
      replace i6 : s.tool_calls = [] := i6
      have hr2 : s.retry_count ≤ 2 := i2 (Or.inl rfl)
      rcases node_guardrail_spec s with h | h | h <;> rw [h]
      · exact inv_done (by simp; omega) (by simp [i6]) ⟨_, rfl⟩
      · exact inv_chat (by simp; omega) (by simp [i6])
      · exact inv_retrieve (by simp; omega) (by simp [i6])
  | chat chat_text s =>
      replace i1 : s.retry_count ≤ 3 := i1
      replace i6 : s.tool_calls = [] := i6
      exact inv_done (by simp [node_chat]; omega) (by simp [node_chat, i6]) ⟨_, rfl⟩
  | retrieve results fda_ctx s =>
      replace i6 : s.tool_calls = [] := i6
      have hr2 : s.retry_count ≤ 2 := i2 (Or.inr (Or.inr (Or.inl rfl)))
      rcases node_retrieve_spec env results fda_ctx s with ⟨ctx, h⟩ | h <;> rw [h]
      · exact inv_clarify (by simp; omega) (by simp [i6])
      · exact inv_clarify (by simp; omega) (by simp [i6])
  | clarify o s =>
      replace i6 : s.tool_calls = [] := i6
      have hr2 : s.retry_count ≤ 2 := i2 (Or.inr (Or.inr (Or.inr (Or.inl rfl))))
      rcases node_clarify_spec o s with ⟨ctx, h⟩ | h | ⟨sum, opts, h⟩ <;> rw [h]
      · exact inv_llm (by simp; omega) (by simp) (by simp [i6])
      · exact inv_llm (by simp; omega) (by simp) (by simp [i6])
      · exact inv_done (by simp; omega) (by simp [i6]) ⟨_, rfl⟩
  | llm o s =>
      replace i6 : s.tool_calls = [] := i6
      have hr2 : s.retry_count ≤ 2 := i2 (Or.inr (Or.inr (Or.inr (Or.inr (Or.inl rfl)))))
      have hroute : s.route = "clear" := i4 (Or.inl rfl)
      rcases node_llm_spec env o s with ⟨r, msgs, h⟩ | ⟨m, h⟩ <;> rw [h]
      · have hrl : route_after_llm
            { s with analysis := some r, validation_errors := [],
                     messages := s.messages ++ msgs } = "validator" := by
          simp [route_after_llm, hroute, i6]
        rw [hrl]
        exact inv_validator (by simp; omega) (by simp [hroute]) (by simp [i6]) ⟨r, by simp⟩
      · exact inv_done (by simp; omega) (by simp [i6]) ⟨_, rfl⟩
  | validator s =>
      replace i6 : s.tool_calls = [] := i6
      have hr2 : s.retry_count ≤ 2 := i2 (Or.inr (Or.inr (Or.inr (Or.inr (Or.inr (Or.inr rfl))))))
      have hroute : s.route = "clear" := i4 (Or.inr (Or.inr rfl))
      obtain ⟨a, hana⟩ : ∃ a, s.analysis = some a := i3 rfl
      rcases node_validator_spec env s with ⟨hnone, _⟩ | ⟨a1, _, hrest⟩
      · rw [hana] at hnone; cases hnone
      · rcases hrest with ⟨herr, h⟩ | ⟨herr, h⟩ <;> rw [h]
        · exact inv_semantic_override (by simp; omega) (by simp [i6])
        · have hrv : route_after_validation
              { s with validation_errors := env.validate a1 s.user_query,
                       retry_count := s.retry_count + 1 } =
              (if s.retry_count + 1 < 3 then "llm" else "fallback") := by
            simp [route_after_validation, herr]
          rw [hrv]
          by_cases hlt : s.retry_count + 1 < 3
          · rw [if_pos hlt]
            exact inv_llm (by simp; omega) (by simp [hroute]) (by simp [i6])
          · rw [if_neg hlt]
            exact inv_fallback (by simp; omega) (by simp [i6])
  | semantic_override s =>
      replace i1 : s.retry_count ≤ 3 := i1
      replace i6 : s.tool_calls = [] := i6
      rcases node_semantic_override_spec s with ⟨_, h⟩ | ⟨a, _, h⟩ <;> rw [h]
      · exact inv_governance i1 i6
      · exact inv_governance (by simp; omega) (by simp [i6])
  | governance s =>
      replace i1 : s.retry_count ≤ 3 := i1
      replace i6 : s.tool_calls = [] := i6
      obtain ⟨fr, h⟩ := node_governance_spec s
      rw [h]
      exact inv_done (by simp; omega) (by simp [i6]) ⟨fr, rfl⟩
  | tool_executor s => exact absurd rfl i7
  | fallback s =>
      replace i1 : s.retry_count ≤ 3 := i1
      replace i6 : s.tool_calls = [] := i6
      exact inv_done (by simp [node_fallback]; omega) (by simp [node_fallback, i6]) ⟨_, rfl⟩

theorem reach_inv {env : Env} {p q : Stage × AgentState}
    (h : Reach env p q) (hp : Inv p) : Inv q := by
  induction h with
  | refl => exact hp
  | tail _ step ih => exact step_preserves_inv step ih

theorem inv_initial (q d t : String) (sel : Option (List String)) :
    Inv (.guardrail, initial_state q d t sel) := by
  refine ⟨?_, ?_, ?_, ?_, ?_, ?_, ?_⟩ <;> simp [initial_state]

/-- Every single transition leaves `retry_count` unchanged or increments it. -/
theorem step_retry_mono {env : Env} {p q : Stage × AgentState}
    (hstep : Step env p q) : p.2.retry_count ≤ q.2.retry_count := by
  cases hstep with
  | guardrail s => rcases node_guardrail_spec s with h | h | h <;> simp [h]
  | chat chat_text s => simp [node_chat]
  | retrieve results fda_ctx s =>
      rcases node_retrieve_spec env results fda_ctx s with ⟨ctx, h⟩ | h <;> simp [h]
  | clarify o s =>
      rcases node_clarify_spec o s with ⟨ctx, h⟩ | h | ⟨sum, opts, h⟩ <;> simp [h]
  | llm o s => rcases node_llm_spec env o s with ⟨r, msgs, h⟩ | ⟨m, h⟩ <;> simp [h]
  | validator s =>
      rcases node_validator_spec env s with ⟨_, h⟩ | ⟨a, _, ⟨_, h⟩ | ⟨_, h⟩⟩ <;> simp [h]
  | semantic_override s =>
      rcases node_semantic_override_spec s with ⟨_, h⟩ | ⟨a, _, h⟩ <;> simp [h]
  | governance s => obtain ⟨fr, h⟩ := node_governance_spec s; simp [h]
  | tool_executor s => simp [node_tool_executor]
  | fallback s => simp [node_fallback]

/-! ## Idempotence of the semantic override -/

theorem override_definition_idem (query : String) (x : ComplianceResponse) :
    override_definition query (override_definition query x) =
      override_definition query x := by
  unfold override_definition
  by_cases c : (is_definition_query_keywords.any fun k => pyIn k (pyLower query)) = true ∧
      x.risk_level ≠ RiskLevel.high
  · rw [if_pos c, if_pos ⟨c.1, by simp⟩]
  · rw [if_neg c, if_neg c]

theorem gdpr_tax_absorb (query : String) (x : ComplianceResponse) :
    gdpr_tax_override (override_definition query (gdpr_tax_override x)) =
      gdpr_tax_override x := by
  unfold override_definition
  split <;> rfl

theorem ccpa_absorb (kv : String × String × RiskLevel × Nat) (query : String)
    (x : ComplianceResponse) :
    ccpa_semantic_override kv (override_definition query (ccpa_semantic_override kv x)) =
      ccpa_semantic_override kv x := by
  unfold override_definition
  split <;> rfl

theorem semantic_override_response_idem (domain query : String) (r : ComplianceResponse) :
    semantic_override_response domain query (semantic_override_response domain query r) =
      semantic_override_response domain query r := by
  unfold semantic_override_response
  by_cases c1 : domain = "GDPR"
  · by_cases c2 : pyIn "tax" (pyLower query) = true ∧
        (pyIn "erase" (pyLower query) = true ∨ pyIn "delet" (pyLower query) = true ∨
          pyIn "refuse" (pyLower query) = true)
    · have hG : ∀ x, override_domain domain query x = gdpr_tax_override x := by
        intro x; unfold override_domain; rw [if_pos c1, if_pos c2]
      simp only [hG]
      rw [gdpr_tax_absorb]
    · have hG : ∀ x, override_domain domain query x = x := by
        intro x; unfold override_domain; rw [if_pos c1, if_neg c2]
      simp only [hG]
      exact override_definition_idem query r
  · by_cases c3 : domain = "CCPA"
    · cases hfind : SEMANTIC_MAP.find? (fun kv => pyIn kv.1 (pyLower query)) with
      | some kv =>
          have hG : ∀ x, override_domain domain query x = ccpa_semantic_override kv x := by
            intro x; unfold override_domain; rw [if_neg c1, if_pos c3, hfind]
          simp only [hG]
          rw [ccpa_absorb]
      | none =>
          have hG : ∀ x, override_domain domain query x = x := by
            intro x; unfold override_domain; rw [if_neg c1, if_pos c3, hfind]
          simp only [hG]
          exact override_definition_idem query r
    · have hG : ∀ x, override_domain domain query x = x := by
        intro x; unfold override_domain; rw [if_neg c1, if_neg c3]
      simp only [hG]
      exact override_definition_idem query r

/-! ## Membership and substring lemmas for the retrieval injection -/

theorem mem_setAdd {x : String} {l : List String} (y : String) (h : x ∈ l) :
    x ∈ setAdd l y := by
  unfold setAdd
  split
  · exact h
  · exact List.mem_append_left _ h

theorem self_mem_setAdd (l : List String) (x : String) : x ∈ setAdd l x := by
  unfold setAdd
  split
  · assumption
  · exact List.mem_append_right _ (List.mem_singleton.mpr rfl)

theorem mem_foldl_setAdd {x : String} (l acc : List String) (h : x ∈ acc) :
    x ∈ l.foldl setAdd acc := by
  induction l generalizing acc with
  | nil => exact h
  | cons y ys ih => exact ih _ (mem_setAdd y h)

theorem mem_injection_foldl {x : String}
    (rules : List (String × List String × List String)) (q_lower : String)
    (acc : List String) (h : x ∈ acc) :
    x ∈ rules.foldl (fun ids rule =>
      if rule.2.1.any (fun t => pyIn t q_lower) then rule.2.2.foldl setAdd ids else ids)
      acc := by
  induction rules generalizing acc with
  | nil => exact h
  | cons r rs ih =>
      simp only [List.foldl_cons]
      apply ih
      split
      · exact mem_foldl_setAdd _ _ h
      · exact h

theorem mem_insertSorted_of_mem {x y : String} {l : List String} (h : x ∈ l) :
    x ∈ insertSorted y l := by
  induction l with
  | nil => cases h
  | cons z zs ih =>
      unfold insertSorted
      split
      · exact List.mem_cons_of_mem _ h
      · rcases List.mem_cons.mp h with rfl | h2
        · exact List.mem_cons_self _ _
        · exact List.mem_cons_of_mem _ (ih h2)

theorem self_mem_insertSorted (y : String) (l : List String) : y ∈ insertSorted y l := by
  induction l with
  | nil => exact List.mem_singleton.mpr rfl
  | cons z zs ih =>
      unfold insertSorted
      split
      · exact List.mem_cons_self _ _
      · exact List.mem_cons_of_mem _ ih

theorem mem_pySorted {x : String} {l : List String} (h : x ∈ l) : x ∈ pySorted l := by
  induction l with
  | nil => cases h
  | cons y ys ih =>
      unfold pySorted
      rcases List.mem_cons.mp h with rfl | h2
      · exact self_mem_insertSorted _ _
      · exact mem_insertSorted_of_mem (ih h2)

theorem infix_pyJoin {x : String} (sep : String) {l : List String} (h : x ∈ l) :
    x.data <:+: (pyJoin sep l).data := by
  induction l with
  | nil => cases h
  | cons y t ih =>
      cases t with
      | nil =>
          rcases List.mem_singleton.mp h with rfl
          exact List.infix_refl _
      | cons z t2 =>
          rcases List.mem_cons.mp h with rfl | hmem
          · show x.data <:+: ((x ++ sep) ++ pyJoin sep (z :: t2)).data
            rw [String.data_append, String.data_append, List.append_assoc]
            exact (List.prefix_append _ _).isInfix
          · have h2 : (pyJoin sep (z :: t2)).data <:+:
                ((y ++ sep) ++ pyJoin sep (z :: t2)).data := by
              rw [String.data_append]
              exact (List.suffix_append _ _).isInfix
            exact (ih hmem).trans h2

theorem pyIn_eq_true_iff {needle hay : String} :
    pyIn needle hay = true ↔ needle.data <:+: hay.data := by
  simp [pyIn]

/-! ## Executions from a guardrail-blocked input -/

theorem node_guardrail_blocked {s : AgentState}
    (hq : (unethical_keywords.any fun k => pyIn k (pyLower s.user_query)) = true) :
    node_guardrail s =
      { s with route := "blocked"
               final_response := some (.analysisDump blocked_compliance_response) } := by
  unfold node_guardrail
  rw [if_pos hq]

theorem guardrail_blocked_reach {env : Env} {q d t : String} {sel : Option (List String)}
    (hq : (unethical_keywords.any fun k => pyIn k (pyLower q)) = true)
    {p : Stage × AgentState}
    (hreach : Reach env (.guardrail, initial_state q d t sel) p) :
    p = (.guardrail, initial_state q d t sel) ∨
    p = (.done, node_guardrail (initial_state q d t sel)) := by
  have hcond : (unethical_keywords.any
      fun k => pyIn k (pyLower (initial_state q d t sel).user_query)) = true := hq
  have hb : node_guardrail (initial_state q d t sel) =
      { initial_state q d t sel with
          route := "blocked"
          final_response := some (.analysisDump blocked_compliance_response) } := by
    unfold node_guardrail
    rw [if_pos hcond]
  induction hreach with
  | refl => exact Or.inl rfl
  | tail h2 step ih =>
      rcases ih with rfl | rfl
      · cases step with
        | guardrail s =>
            right
            rw [hb]
            rfl
      · cases step

/-! ## Concrete collaborators and inputs used by the closed instances -/

/-- A concrete environment instantiating the collaborator interfaces. -/
def sample_env : Env :=
  { expand_article_by_id := fun aid => "Article " ++ aid ++ ": expanded text"
    validate := fun r _ =>
      if r.reasoning_map.isEmpty then ["❌ Reasoning Map: The reasoning_map field is EMPTY."]
      else []
    execute_tool_call := fun n _ => "result of " ++ n
    json_dumps := fun _ => "serialized analysis" }

/-! ## C1 — the validator router -/

/-- C1: for every state reaching the validator router, empty
`validation_errors` routes to `semantic_override`; non-empty errors with
`retry_count < 3` route to `llm` (Generate); non-empty errors with
`retry_count ≥ 3` route to `fallback`; and no other outcome is possible. -/
theorem claim_C1 (s : AgentState) :
    (s.validation_errors = [] → route_after_validation s = "semantic_override") ∧
    (s.validation_errors ≠ [] → s.retry_count < 3 → route_after_validation s = "llm") ∧
    (s.validation_errors ≠ [] → 3 ≤ s.retry_count → route_after_validation s = "fallback") ∧
    (route_after_validation s = "semantic_override" ∨ route_after_validation s = "llm" ∨
      route_after_validation s = "fallback") := by
  refine ⟨?_, ?_, ?_, ?_⟩
  · intro he; unfold route_after_validation; rw [if_pos he]
  · intro hne hlt; unfold route_after_validation; rw [if_neg hne, if_pos hlt]
  · intro hne hge
    unfold route_after_validation
    rw [if_neg hne, if_neg (by omega : ¬ s.retry_count < 3)]
  · rcases route_after_validation_spec s with ⟨_, h⟩ | ⟨_, _, h⟩ | ⟨_, _, h⟩
    · exact Or.inl h
    · exact Or.inr (Or.inl h)
    · exact Or.inr (Or.inr h)

/-- Witness for C1: the three outcomes at concrete validator states. -/
theorem claim_C1_witness :
    route_after_validation (initial_state "q" "GDPR" "t" none) = "semantic_override" ∧
    route_after_validation
      { initial_state "q" "GDPR" "t" none with
          validation_errors := ["err"], retry_count := 1 } = "llm" ∧
    route_after_validation
      { initial_state "q" "GDPR" "t" none with
          validation_errors := ["err"], retry_count := 3 } = "fallback" :=
  ⟨(claim_C1 _).1 rfl,
   (claim_C1 _).2.1 (by decide) (by decide),
   (claim_C1 _).2.2.1 (by decide) (by decide)⟩

/-! ## C2 — monotone bounded retry counter -/

/-- C2: along every turn from the initial state, (i) no transition ever
decreases `retry_count`; (ii) the validator increments it by exactly one when
it finds validation errors and leaves it unchanged otherwise (every reachable
validator state carries a parsed analysis); (iii) `retry_count ≤ 3` in every
reachable state. -/
theorem claim_C2 (env : Env) (q d t : String) (sel : Option (List String)) :
    (∀ p p2 : Stage × AgentState, Step env p p2 → p.2.retry_count ≤ p2.2.retry_count) ∧
    (∀ p : Stage × AgentState, Reach env (.guardrail, initial_state q d t sel) p →
      p.1 = .validator →
      ∃ a, p.2.analysis = some a ∧
        (node_validator env p.2).retry_count =
          p.2.retry_count + (if env.validate a p.2.user_query = [] then 0 else 1)) ∧
    (∀ p : Stage × AgentState, Reach env (.guardrail, initial_state q d t sel) p →
      p.2.retry_count ≤ 3) := by
  refine ⟨fun p p2 h => step_retry_mono h, ?_, ?_⟩
  · intro p hreach hval
    obtain ⟨-, -, i3, -, -, -, -⟩ := reach_inv hreach (inv_initial q d t sel)
    obtain ⟨a, hana⟩ := i3 hval
    refine ⟨a, hana, ?_⟩
    rcases node_validator_spec env p.2 with ⟨hnone, -⟩ | ⟨a1, ha1, hrest⟩
    · rw [hana] at hnone; cases hnone
    · rw [hana] at ha1
      obtain rfl : a = a1 := Option.some.inj ha1
      rcases hrest with ⟨herr, h⟩ | ⟨herr, h⟩
      · rw [h, if_pos herr]; rfl
      · rw [h, if_neg herr]
  · intro p hreach
    exact (reach_inv hreach (inv_initial q d t sel)).1

/-- Witness for C2: the bound applied to the (trivially reachable) initial
state of a concrete turn. -/
theorem claim_C2_witness :
    (Stage.guardrail, initial_state "what is personal data" "GDPR" "t" none).2.retry_count ≤ 3 :=
  (claim_C2 sample_env "what is personal data" "GDPR" "t" none).2.2 _
    Relation.ReflTransGen.refl

/-! ## C3 — guardrail block terminates the turn -/

/-- C3: for every query containing a disallowed-intent keyword, the guardrail
sets `route = "blocked"` together with a complete final result, execution
terminates immediately (the only reachable configurations are the initial
guardrail state and the terminal END state), and in particular no state at the
Retrieve or Generate (llm) stage is ever reachable in that turn. -/
theorem claim_C3 (env : Env) (q d t : String) (sel : Option (List String))
    (hq : (unethical_keywords.any fun k => pyIn k (pyLower q)) = true) :
    (node_guardrail (initial_state q d t sel)).route = "blocked" ∧
    (node_guardrail (initial_state q d t sel)).final_response =
      some (.analysisDump blocked_compliance_response) ∧
    (∀ p : Stage × AgentState, Reach env (.guardrail, initial_state q d t sel) p →
      p = (.guardrail, initial_state q d t sel) ∨
      p = (.done, node_guardrail (initial_state q d t sel))) ∧
    (∀ p : Stage × AgentState, Reach env (.guardrail, initial_state q d t sel) p →
      p.1 ≠ .retrieve ∧ p.1 ≠ .llm) := by
  have hcond : (unethical_keywords.any
      fun k => pyIn k (pyLower (initial_state q d t sel).user_query)) = true := hq
  refine ⟨by rw [node_guardrail_blocked hcond], by rw [node_guardrail_blocked hcond],
    fun p hreach => guardrail_blocked_reach hq hreach, ?_⟩
  intro p hreach
  rcases guardrail_blocked_reach hq hreach with rfl | rfl
  · exact ⟨by simp, by simp⟩
  · exact ⟨by simp, by simp⟩

/-- Witness for C3: the scenario input "how can i hide a data breach". -/
theorem claim_C3_witness :
    (node_guardrail (initial_state "how can i hide a data breach" "GDPR" "default" none)).route
      = "blocked" :=
  (claim_C3 sample_env "how can i hide a data breach" "GDPR" "default" none (by decide)).1

/-! ## C4 — prior user selections skip the clarify sub-call -/

/-- C4: when `user_selections` is a non-empty list, `node_clarify` is
independent of the generative sub-call outcome, appends the selections to
`retrieved_context` as a user-clarification block, sets `route = "clear"`, and
the clarify router then sends execution to the Generate (llm) stage. -/
theorem claim_C4 (s : AgentState) (sel : String) (sels : List String)
    (hsel : s.user_selections = some (sel :: sels)) :
    (∀ o o2 : ClarifyOutcome, node_clarify o s = node_clarify o2 s) ∧
    (∀ o : ClarifyOutcome,
      node_clarify o s =
        { s with
            retrieved_context := s.retrieved_context ++ "\n\n[USER CLARIFICATION]\n" ++
              pyJoin "\n" ((sel :: sels).map (fun x => "- " ++ x)),
            route := "clear" } ∧
      (node_clarify o s).route = "clear" ∧
      route_after_clarify (node_clarify o s) = "llm" ∧
      clarify_edges (route_after_clarify (node_clarify o s)) = Stage.llm) := by
  have key : ∀ o : ClarifyOutcome, node_clarify o s =
      { s with
          retrieved_context := s.retrieved_context ++ "\n\n[USER CLARIFICATION]\n" ++
            pyJoin "\n" ((sel :: sels).map (fun x => "- " ++ x)),
          route := "clear" } := by
    intro o
    simp only [node_clarify.eq_def, hsel]
  refine ⟨fun o o2 => (key o).trans (key o2).symm, fun o => ⟨key o, ?_, ?_, ?_⟩⟩
  · rw [key o]
  · rw [key o]; rfl
  · rw [key o]; rfl

/-- A concrete state resumed with prior user selections. -/
def c4_state : AgentState :=
  { initial_state "We lost patient data" "GDPR" "t" (some ["The data was encrypted"]) with
      retrieved_context := "Article 33: expanded text" }

/-- Witness for C4: a resumed conversation with one prior selection skips the
sub-call (exception outcome and success outcome agree) and routes to Generate. -/
theorem claim_C4_witness :
    node_clarify (.exc "provider down") c4_state =
      node_clarify (.ok { needs_clarification := true, summary := "s", options := [] })
        c4_state ∧
    route_after_clarify (node_clarify (.exc "provider down") c4_state) = "llm" :=
  ⟨(claim_C4 c4_state "The data was encrypted" [] rfl).1 _ _,
   ((claim_C4 c4_state "The data was encrypted" [] rfl).2 _).2.2.1⟩

/-! ## C5 — penalty-keyword injection forces Article 83 inclusion -/

theorem node_retrieve_gdpr_context (env : Env) (results : List SearchResult)
    (fda_ctx : String) (s : AgentState) (hdom : s.domain = "GDPR")
    (hne : ¬ results.isEmpty = true) :
    (node_retrieve env results fda_ctx s).retrieved_context =
      pyJoin "\n\n" ((pySorted (DOMAIN_MAP.foldl (fun ids rule =>
          if rule.2.1.any (fun t => pyIn t (pyLower s.user_query)) then
            rule.2.2.foldl setAdd ids
          else ids)
        (pyDedup (results.map (fun r => r.article_id))))).map env.expand_article_by_id) := by
  unfold node_retrieve
  rw [if_pos hdom, if_neg hne]

/-- C5: for every GDPR query containing the financial-penalty keyword "fine"
and every non-empty retrieval result that does not contain Article 83, the
`retrieved_context` built by the Retrieve stage still contains the expanded
penalty article: the keyword→identifier injection table forces its inclusion
regardless of retrieval rank. -/
theorem claim_C5 (env : Env) (results : List SearchResult) (fda_ctx : String)
    (s : AgentState) (hdom : s.domain = "GDPR")
    (hfine : ∃ k ∈ (["fine", "penalty", "administrative", "sanction", "euro"] : List String),
      pyIn k (pyLower s.user_query) = true)
    (hne : results ≠ [])
    (hno83 : "83" ∉ results.map (fun r => r.article_id)) :
    pyIn (env.expand_article_by_id "83")
      ((node_retrieve env results fda_ctx s).retrieved_context) = true := by
  have hne2 : ¬ results.isEmpty = true := by
    cases results with
    | nil => exact absurd rfl hne
    | cons a l => simp
  rw [node_retrieve_gdpr_context env results fda_ctx s hdom hne2]
  apply pyIn_eq_true_iff.mpr
  apply infix_pyJoin
  apply List.mem_map_of_mem
  apply mem_pySorted
  obtain ⟨k, hk1, hk2⟩ := hfine
  have hany : ((["fine", "penalty", "administrative", "sanction", "euro"] : List String).any
      fun t => pyIn t (pyLower s.user_query)) = true :=
    List.any_eq_true.mpr ⟨k, hk1, hk2⟩
  unfold DOMAIN_MAP
  rw [List.foldl_cons]
  apply mem_injection_foldl
  dsimp only
  rw [if_pos hany]
  exact self_mem_setAdd _ _

/-- A concrete penalty query whose retrieval result omits Article 83. -/
def c5_state : AgentState :=
  initial_state "What is the maximum fine for a data breach?" "GDPR" "t" none

/-- Witness for C5: a turn retrieving only Article 33 still ends with the
expanded Article 83 in its context. -/
theorem claim_C5_witness :
    pyIn (sample_env.expand_article_by_id "83")
      ((node_retrieve sample_env
        [{ article_id := "33", clause_id := "33(1)", text := "breach notification" }]
        "" c5_state).retrieved_context) = true :=
  claim_C5 sample_env
    [{ article_id := "33", clause_id := "33(1)", text := "breach notification" }]
    "" c5_state rfl ⟨"fine", by decide, by decide⟩ (by decide) (by decide)

/-! ## C6 — empty retrieval does NOT terminate the turn (code bug) -/

/-- The concrete turn exhibiting the empty-retrieval behaviour. -/
def c6_initial : AgentState := initial_state "what is personal data" "GDPR" "t" none

/-- The state after the guardrail stage of the C6 turn (`route = "analysis"`). -/
def c6_after_guardrail : AgentState := node_guardrail c6_initial

/-- The state after the Retrieve stage of the C6 turn when the retrieval
collaborator returns no results. -/
def c6_after_retrieve : AgentState := node_retrieve sample_env [] "" c6_after_guardrail

/-- The state after the Clarify stage of the C6 turn (the definition-keyword
short-circuit fires, overwriting `route`). -/
def c6_after_clarify : AgentState := node_clarify (.exc "provider down") c6_after_retrieve

/-- C6 (code bug): on an empty retrieval result `node_retrieve` does set
`route = "blocked"` and the "Insufficient context found." error result — but
the graph edge `retrieve → clarify` is unconditional and `node_clarify`
overwrites `route` on every path, so the turn does not terminate: the compiled
graph steps into Clarify and then into the Generate (llm) stage. -/
theorem claim_C6_code_bug :
    c6_after_retrieve.route = "blocked" ∧
    c6_after_retrieve.final_response = some (.error "Insufficient context found.") ∧
    Step sample_env (.retrieve, c6_after_guardrail) (.clarify, c6_after_retrieve) ∧
    Step sample_env (.clarify, c6_after_retrieve) (.llm, c6_after_clarify) ∧
    Reach sample_env (.guardrail, c6_initial) (.llm, c6_after_clarify) := by
  have t1 : Step sample_env (.guardrail, c6_initial) (.retrieve, c6_after_guardrail) :=
    Step.guardrail c6_initial
  have t2 : Step sample_env (.retrieve, c6_after_guardrail) (.clarify, c6_after_retrieve) :=
    Step.retrieve [] "" c6_after_guardrail
  have t3 : Step sample_env (.clarify, c6_after_retrieve) (.llm, c6_after_clarify) :=
    Step.clarify (.exc "provider down") c6_after_retrieve
  exact ⟨rfl, rfl, t2, t3,
    Relation.ReflTransGen.head t1
      (Relation.ReflTransGen.head t2 (Relation.ReflTransGen.single t3))⟩

/-! ## C7 — the semantic override stage is idempotent -/

/-- C7: on every state carrying a parsed candidate analysis, applying
`node_semantic_override` twice (same query and domain) equals applying it once:
the second application produces no further change. -/
theorem claim_C7 (s : AgentState) (a : ComplianceResponse) (ha : s.analysis = some a) :
    node_semantic_override (node_semantic_override s) = node_semantic_override s := by
  rcases node_semantic_override_spec s with ⟨hnone, -⟩ | ⟨a0, ha0, h⟩
  · rw [ha] at hnone; cases hnone
  · rw [h]
    rcases node_semantic_override_spec
        { s with analysis := some (semantic_override_response s.domain s.user_query a0) }
      with ⟨hn2, -⟩ | ⟨a1, ha1, h2⟩
    · exact absurd hn2 (by simp)
    · rw [h2]
      have ha1x : semantic_override_response s.domain s.user_query a0 = a1 := by
        simpa using ha1
      subst ha1x
      simp [semantic_override_response_idem]

/-- A concrete candidate analysis for the C7 instance. -/
def c7_analysis : ComplianceResponse :=
  { summary := "Sharing raises an opt-out right."
    needs_clarification := false
    missing_preconditions := []
    legal_basis := "CCPA"
    scope_limitation := "None"
    risk_analysis := "Opt-out obligations apply."
    risk_level := .medium
    confidence_score := 80
    references := []
    reasoning_map := [] }

/-- A concrete state with a parsed candidate analysis. -/
def c7_state : AgentState :=
  { initial_state "Can we share geolocation data?" "CCPA" "t" none with
      analysis := some c7_analysis }

/-- Witness for C7: idempotence at a concrete CCPA state. -/
theorem claim_C7_witness :
    node_semantic_override (node_semantic_override c7_state) = node_semantic_override c7_state :=
  claim_C7 c7_state c7_analysis rfl

/-! ## C8 — terminal result discriminators -/

/-- The concrete blocked turn used to refute C8 as stated. -/
def c8_blocked_initial : AgentState :=
  initial_state "how can i hide a data breach" "GDPR" "default" none

/-- Counterexample to C8 as stated: the guardrail-blocked terminal path sets a
final result that is a bare analysis dump with NO `"type"` discriminator key
(`typeTag = none`), so this terminal result does not carry a discriminator
distinguishing blocked / error / clarification / review-required / answer. -/
theorem claim_C8_counterexample :
    Step sample_env (.guardrail, c8_blocked_initial)
      (.done, node_guardrail c8_blocked_initial) ∧
    ((node_guardrail c8_blocked_initial).final_response.map FinalResponse.typeTag) =
      some none :=
  ⟨Step.guardrail c8_blocked_initial, rfl⟩

/-- C8 (amended): every reachable END state carries a `final_response`, and the
terminal payloads of Chat, Clarify-depends, Retrieve failure, Generate error,
Governance blocked, Governance review-required and Fallback carry the `"type"`
discriminators `chat` / `clarification` / `error` / `error` / `blocked` /
`review_required` / `error` respectively — but the Guardrail block and the
Governance pass-throughs (needs-clarification and auto-approval) return a bare
analysis dump with no discriminator key at all. -/
theorem claim_C8_amended (env : Env) (q d t : String) (sel : Option (List String)) :
    (∀ p : Stage × AgentState, Reach env (.guardrail, initial_state q d t sel) p →
      p.1 = .done → ∃ fr, p.2.final_response = some fr) ∧
    (∀ (s : AgentState) (chat_text : String),
      ((node_chat chat_text s).final_response.map FinalResponse.typeTag) = some (some "chat")) ∧
    (∀ s : AgentState, (unethical_keywords.any fun k => pyIn k (pyLower s.user_query)) = true →
      ((node_guardrail s).final_response.map FinalResponse.typeTag) = some none) ∧
    (∀ (o : ClarifyOutcome) (s : AgentState), (node_clarify o s).route = "depends" →
      ((node_clarify o s).final_response.map FinalResponse.typeTag) =
        some (some "clarification")) ∧
    (∀ (env2 : Env) (fda_ctx : String) (s : AgentState), s.domain = "GDPR" →
      ((node_retrieve env2 [] fda_ctx s).final_response.map FinalResponse.typeTag) =
        some (some "error")) ∧
    (∀ (env2 : Env) (m : String) (s : AgentState),
      ((node_llm env2 (.exc m) s).final_response.map FinalResponse.typeTag) =
          some (some "error") ∧
      ((node_llm env2 (.raw m) s).final_response.map FinalResponse.typeTag) =
          some (some "error")) ∧
    (∀ (s : AgentState) (a : ComplianceResponse), s.analysis = some a →
      (a.needs_clarification = true →
        ((node_governance s).final_response.map FinalResponse.typeTag) = some none) ∧
      (a.needs_clarification = false →
        ((classify_decision a.confidence_score a.risk_level.value false).status = .blocked →
          ((node_governance s).final_response.map FinalResponse.typeTag) =
            some (some "blocked")) ∧
        ((classify_decision a.confidence_score a.risk_level.value false).status =
            .review_required →
          ((node_governance s).final_response.map FinalResponse.typeTag) =
            some (some "review_required")) ∧
        ((classify_decision a.confidence_score a.risk_level.value false).status =
            .auto_approved →
          ((node_governance s).final_response.map FinalResponse.typeTag) = some none))) ∧
    (∀ s : AgentState,
      ((node_fallback s).final_response.map FinalResponse.typeTag) = some (some "error")) := by
  refine ⟨?_, ?_, ?_, ?_, ?_, ?_, ?_, ?_⟩
  · intro p hreach hdone
    exact (reach_inv hreach (inv_initial q d t sel)).2.2.2.2.1 hdone
  · intro s chat_text; rfl
  · intro s hq; rw [node_guardrail_blocked hq]; rfl
  · intro o s hdep
    rcases node_clarify_spec o s with ⟨ctx, h⟩ | h | ⟨sum, opts, h⟩
    · rw [h] at hdep; exact absurd hdep (by simp)
    · rw [h] at hdep; exact absurd hdep (by simp)
    · rw [h]; rfl
  · intro env2 fda_ctx s hdom
    unfold node_retrieve
    rw [if_pos hdom]
    rfl
  · intro env2 m s; exact ⟨rfl, rfl⟩
  · intro s a ha
    constructor
    · intro hc
      simp only [node_governance.eq_def, ha]
      rw [if_pos hc]
      rfl
    · intro hc
      have hcn : ¬ a.needs_clarification = true := by simp [hc]
      refine ⟨?_, ?_, ?_⟩ <;> intro hs <;>
        simp only [node_governance.eq_def, ha] <;> rw [if_neg hcn] <;> simp only [hs] <;> rfl
  · intro s; rfl

/-- Witness for C8 (amended): the guardrail block on a "loophole" query yields
an undiscriminated analysis dump. -/
theorem claim_C8_witness :
    ((node_guardrail (initial_state "is there a loophole in gdpr" "GDPR" "t"
        none)).final_response.map FinalResponse.typeTag) = some none :=
  (claim_C8_amended sample_env "q" "GDPR" "t" none).2.2.1
    (initial_state "is there a loophole in gdpr" "GDPR" "t" none) (by decide)

/-! ## C9 — provider failover short-circuits on schema mismatch -/

theorem safe_api_call_loop_step {α : Type} (call : String → Except String α) (m : String)
    (rest errs : List String) {e : String} (hcall : call m = .error e)
    (hsm : is_schema_mismatch e = false) :
    safe_api_call_loop call (m :: rest) errs =
      safe_api_call_loop call rest (errs ++ [m ++ ": " ++ e]) := by
  simp [safe_api_call_loop, hcall, hsm]

theorem safe_api_models_tried_step {α : Type} (call : String → Except String α) (m : String)
    (rest : List String) {e : String} (hcall : call m = .error e)
    (hsm : is_schema_mismatch e = false) :
    safe_api_models_tried call (m :: rest) = m :: safe_api_models_tried call rest := by
  simp [safe_api_models_tried, hcall, hsm]

theorem safe_api_schema_stop {α : Type} (call : String → Except String α) {e : String}
    (hsm : is_schema_mismatch e = true) :
    ∀ (pre : List String),
      (∀ m2 ∈ pre, ∃ e2, call m2 = .error e2 ∧ is_schema_mismatch e2 = false) →
      ∀ (m : String), call m = .error e → ∀ (post errs : List String),
      safe_api_call_loop call (pre ++ m :: post) errs =
        .schema_error ("Schema Validation Error: " ++ pyLower e) ∧
      safe_api_models_tried call (pre ++ m :: post) = pre ++ [m] := by
  intro pre
  induction pre with
  | nil =>
      intro _ m hcall post errs
      constructor
      · simp [safe_api_call_loop, hcall, hsm]
      · simp [safe_api_models_tried, hcall, hsm]
  | cons p ps ih =>
      intro hpre m hcall post errs
      obtain ⟨e2, hcall2, hsm2⟩ := hpre p (List.mem_cons_self _ _)
      have hrec := ih (fun x hx => hpre x (List.mem_cons_of_mem _ hx)) m hcall post
        (errs ++ [p ++ ": " ++ e2])
      constructor
      · rw [List.cons_append, safe_api_call_loop_step call p _ errs hcall2 hsm2]
        exact hrec.1
      · rw [List.cons_append, safe_api_models_tried_step call p _ hcall2 hsm2, hrec.2]
        rfl

theorem safe_api_all_fail {α : Type} (call : String → Except String α) :
    ∀ (models errs : List String),
      (∀ m2 ∈ models, ∃ e2, call m2 = .error e2 ∧ is_schema_mismatch e2 = false) →
      ∃ errs2, safe_api_call_loop call models errs = .outage (errs ++ errs2) ∧
        errs2.length = models.length := by
  intro models
  induction models with
  | nil => intro errs _; exact ⟨[], by simp [safe_api_call_loop], rfl⟩
  | cons m rest ih =>
      intro errs h
      obtain ⟨e, hcall, hsm⟩ := h m (List.mem_cons_self _ _)
      obtain ⟨errs2, h1, h2⟩ :=
        ih (errs ++ [m ++ ": " ++ e]) (fun x hx => h x (List.mem_cons_of_mem _ hx))
      refine ⟨(m ++ ": " ++ e) :: errs2, ?_, by simp [h2]⟩
      rw [safe_api_call_loop_step call m rest errs hcall hsm, h1]
      simp

/-- C9: in the failover loop of `safe_api_call`, (i) a failure classified as a
schema/shape mismatch aborts immediately with the terminal schema error and no
further model is tried; (ii) any other failure moves on to the next model in
the list, accumulating the error; (iii) only when every model fails (with
non-schema errors) does the loop raise the outage error, carrying one
accumulated error per model. -/
theorem claim_C9 {α : Type} (call : String → Except String α) :
    (∀ (pre : List String) (m : String) (post : List String) (e : String),
      (∀ m2 ∈ pre, ∃ e2, call m2 = .error e2 ∧ is_schema_mismatch e2 = false) →
      call m = .error e → is_schema_mismatch e = true →
      safe_api_call call (pre ++ m :: post) =
        .schema_error ("Schema Validation Error: " ++ pyLower e) ∧
      safe_api_models_tried call (pre ++ m :: post) = pre ++ [m]) ∧
    (∀ (m : String) (rest errs : List String) (e : String),
      call m = .error e → is_schema_mismatch e = false →
      safe_api_call_loop call (m :: rest) errs =
        safe_api_call_loop call rest (errs ++ [m ++ ": " ++ e]) ∧
      safe_api_models_tried call (m :: rest) = m :: safe_api_models_tried call rest) ∧
    (∀ models : List String,
      (∀ m2 ∈ models, ∃ e2, call m2 = .error e2 ∧ is_schema_mismatch e2 = false) →
      ∃ errs, safe_api_call call models = .outage errs ∧ errs.length = models.length) := by
  refine ⟨?_, ?_, ?_⟩
  · intro pre m post e hpre hcall hsm
    exact safe_api_schema_stop call hsm pre hpre m hcall post []
  · intro m rest errs e hcall hsm
    exact ⟨safe_api_call_loop_step call m rest errs hcall hsm,
      safe_api_models_tried_step call m rest hcall hsm⟩
  · intro models h
    obtain ⟨errs2, h1, h2⟩ := safe_api_all_fail call models [] h
    exact ⟨errs2, by simpa using h1, by simpa using h2⟩

/-- A concrete provider-call outcome table: the first model hits a rate limit,
later models parse successfully. -/
def c9_call : String → Except String String := fun m =>
  if m = "llama-3.1-8b-instant" then .error "Rate limit exceeded" else .ok "parsed"

/-- Witness for C9: the non-schema failure of the first Groq model moves the
loop to the second model, accumulating the error. -/
theorem claim_C9_witness :
    safe_api_call_loop c9_call ["llama-3.1-8b-instant", "llama-3.3-70b-versatile"] [] =
      safe_api_call_loop c9_call ["llama-3.3-70b-versatile"]
        ["llama-3.1-8b-instant" ++ ": " ++ "Rate limit exceeded"] ∧
    safe_api_models_tried c9_call ["llama-3.1-8b-instant", "llama-3.3-70b-versatile"] =
      "llama-3.1-8b-instant" :: safe_api_models_tried c9_call ["llama-3.3-70b-versatile"] :=
  (claim_C9 c9_call).2.1 "llama-3.1-8b-instant" ["llama-3.3-70b-versatile"] []
    "Rate limit exceeded" rfl (by decide)

/-! ## C10 — the ReAct tool cycle is unreachable -/

/-- C10 (implicit): starting from the initial state (`tool_calls = []`), the
Generate stage never populates `tool_calls` (no stage does), so every reachable
state has `tool_calls = []`, `route_after_llm` never returns "tool_executor",
and the tool-executor stage is unreachable. -/
theorem claim_C10 (env : Env) (q d t : String) (sel : Option (List String)) :
    (∀ (s : AgentState) (o : LLMOutcome), s.tool_calls = [] →
      (node_llm env o s).tool_calls = []) ∧
    (∀ p : Stage × AgentState, Reach env (.guardrail, initial_state q d t sel) p →
      p.2.tool_calls = [] ∧ p.1 ≠ .tool_executor) ∧
    (∀ p : Stage × AgentState, Reach env (.guardrail, initial_state q d t sel) p →
      ∀ o : LLMOutcome, route_after_llm (node_llm env o p.2) ≠ "tool_executor") := by
  refine ⟨?_, ?_, ?_⟩
  · intro s o h
    rcases node_llm_spec env o s with ⟨r, msgs, hh⟩ | ⟨m, hh⟩ <;> rw [hh] <;> simpa using h
  · intro p hreach
    have hi := reach_inv hreach (inv_initial q d t sel)
    exact ⟨hi.2.2.2.2.2.1, hi.2.2.2.2.2.2⟩
  · intro p hreach o
    have h6 : p.2.tool_calls = [] :=
      (reach_inv hreach (inv_initial q d t sel)).2.2.2.2.2.1
    rcases node_llm_spec env o p.2 with ⟨r, msgs, hh⟩ | ⟨m, hh⟩ <;> rw [hh]
    · rcases route_after_llm_spec
          { p.2 with
              analysis := some r, validation_errors := [],
              messages := p.2.messages ++ msgs }
        with ⟨-, h⟩ | ⟨-, hne, -⟩ | ⟨-, -, h⟩
      · rw [h]; decide
      · exact absurd h6 (by simpa using hne)
      · rw [h]; decide
    · rcases route_after_llm_spec
          { p.2 with final_response := some (.error m), route := "blocked" }
        with ⟨-, h⟩ | ⟨-, hne, -⟩ | ⟨-, -, h⟩
      · rw [h]; decide
      · exact absurd h6 (by simpa using hne)
      · rw [h]; decide

/-- Witness for C10: the reachability conjunct at the initial state of a
concrete turn. -/
theorem claim_C10_witness :
    (Stage.guardrail, initial_state "hello" "GDPR" "t" none).2.tool_calls = [] ∧
    (Stage.guardrail, initial_state "hello" "GDPR" "t" none).1 ≠ Stage.tool_executor :=
  (claim_C10 sample_env "hello" "GDPR" "t" none).2.1 _ Relation.ReflTransGen.refl

end ComplianceAgent
